import Mathlib

/-!
Verification of the debounced eye-state machine and actuator command
protocol of the eye-controlled car / sleepiness-detection repository.

The Python sources are shallowly embedded: each instance method that
mutates counters or the serial handle becomes a pure Lean function from
the old state to the new state plus its observable outputs.  Python's
unbounded `int` counters are modelled as `Int`; the floating-point eye
aspect ratio handed to the continuous-mode debouncer is modelled as `ℚ`
(only order comparisons against the threshold matter there), while the
geometric EAR computation itself is modelled over `ℝ`.
-/

namespace IotCar

/-- Per-frame observation consumed by the discrete (Haar-cascade)
pipelines: `facePresent` records whether `detectMultiScale` returned at
least one face, and `eyeCount` the number of eye rectangles found inside
the largest face region. -/
structure Observation where
  facePresent : Bool
  eyeCount : Nat
deriving DecidableEq

/-- The mutable counters of `EyeControlledCar` (`self.eye_closed_counter`
and `self.no_face_counter`). -/
structure DebounceState where
  eye_closed_counter : Int
  no_face_counter : Int
deriving DecidableEq

/-- The four branches of `EyeControlledCar.detect_eye_state`, one
constructor per return site: the no-face branch, the confirmed-closed
branch, the still-accumulating branch (Python returns `None`), and the
eyes-open branch. -/
inductive DetectionState where
  | EYES_OPEN
  | EYES_CLOSED
  | UNCERTAIN
  | NO_FACE
deriving DecidableEq

/-- The `eyes_open` value (`True` / `False` / `None`) that
`EyeControlledCar.detect_eye_state` actually returns for each branch;
note the no-face branch and the confirmed-closed branch both return
`False`. -/
def DetectionState.eyesOpen : DetectionState → Option Bool
  | .EYES_OPEN => some true
  | .EYES_CLOSED => some false
  | .NO_FACE => some false
  | .UNCERTAIN => none

/-- `EyeControlledCar.EYE_CLOSED_THRESHOLD`. -/
def EYE_CLOSED_THRESHOLD : Int := 15

/-- One call of `EyeControlledCar.detect_eye_state`, with the frame
threshold (`self.EYE_CLOSED_THRESHOLD`, source value 15) as a parameter.
Returns the updated counters and the branch taken. -/
def detect_eye_state (threshold : Int) (s : DebounceState) (o : Observation) :
    DebounceState × DetectionState :=
  if o.facePresent = false then
    ({ eye_closed_counter := 0, no_face_counter := s.no_face_counter + 1 }, .NO_FACE)
  else
    if o.eyeCount < 2 then
      let c := s.eye_closed_counter + 1
      if c > threshold then
        ({ eye_closed_counter := c, no_face_counter := 0 }, .EYES_CLOSED)
      else
        ({ eye_closed_counter := c, no_face_counter := 0 }, .UNCERTAIN)
    else
      ({ eye_closed_counter := 0, no_face_counter := 0 }, .EYES_OPEN)

/-- Counters after the first `n` observations of the stream `obs` have
been fed through `detect_eye_state`, starting from `s0`. -/
def stateAfter (threshold : Int) (s0 : DebounceState) (obs : Nat → Observation) :
    Nat → DebounceState
  | 0 => s0
  | n + 1 =>
      (detect_eye_state threshold (stateAfter threshold s0 obs n) (obs n)).1

/-- Branch taken by the `n`-th call of `detect_eye_state` on the stream
`obs` (1-indexed, so `callResult … 1` is the first call). -/
def callResult (threshold : Int) (s0 : DebounceState) (obs : Nat → Observation)
    (n : Nat) : DetectionState :=
  (detect_eye_state threshold (stateAfter threshold s0 obs (n - 1)) (obs (n - 1))).2

/-- `SleepinessDetector.EAR_THRESHOLD`. -/
def EAR_THRESHOLD : ℚ := 21 / 100

/-- `SleepinessDetector.CONSECUTIVE_FRAMES`. -/
def CONSECUTIVE_FRAMES : Int := 20

/-- The mutable counters of `SleepinessDetector`
(`self.frame_counter`, `self.sleepy_counter`). -/
structure SleepState where
  frame_counter : Int
  sleepy_counter : Int
deriving DecidableEq

/-- The per-face body of `SleepinessDetector.process_frame`, given the
average eye aspect ratio `ear` computed for this frame; `th` is
`self.EAR_THRESHOLD` and `cf` is `self.CONSECUTIVE_FRAMES`.  Returns the
updated counters, the detection outcome the branch encodes (alert sent
means confirmed closed, counting without an alert is the uncertain case,
and the else-branch is open), and the bytes handed to
`send_to_arduino`. -/
def process_frame_face (th : ℚ) (cf : Int) (s : SleepState) (ear : ℚ) :
    SleepState × DetectionState × List Char :=
  if ear < th then
    if s.frame_counter + 1 ≥ cf then
      ({ frame_counter := s.frame_counter + 1,
         sleepy_counter := s.sleepy_counter + 1 }, .EYES_CLOSED, ['0'])
    else
      ({ frame_counter := s.frame_counter + 1,
         sleepy_counter := s.sleepy_counter }, .UNCERTAIN, [])
  else
    ({ frame_counter := 0, sleepy_counter := s.sleepy_counter }, .EYES_OPEN, ['1'])

/-- Counters of the continuous-mode debouncer after the first `n` frames
whose average eye aspect ratios are `ears 0, …, ears (n-1)`. -/
def sleepStateAfter (th : ℚ) (cf : Int) (s0 : SleepState) (ears : Nat → ℚ) :
    Nat → SleepState
  | 0 => s0
  | n + 1 =>
      (process_frame_face th cf (sleepStateAfter th cf s0 ears n) (ears n)).1

/-- Detection outcome of the `n`-th continuous-mode frame (1-indexed). -/
def sleepCallResult (th : ℚ) (cf : Int) (s0 : SleepState) (ears : Nat → ℚ)
    (n : Nat) : DetectionState :=
  (process_frame_face th cf (sleepStateAfter th cf s0 ears (n - 1)) (ears (n - 1))).2.1

/-- On a face-present frame with fewer than two eyes, `detect_eye_state`
increments the closed counter, zeroes the no-face counter, and reports
confirmed-closed exactly when the incremented counter exceeds the
threshold. -/
lemma detect_eye_state_closed (t : Int) (s : DebounceState) (o : Observation)
    (hface : o.facePresent = true) (heyes : o.eyeCount < 2) :
    detect_eye_state t s o =
      ({ eye_closed_counter := s.eye_closed_counter + 1, no_face_counter := 0 },
        if s.eye_closed_counter + 1 > t then DetectionState.EYES_CLOSED
        else DetectionState.UNCERTAIN) := by
  simp only [detect_eye_state, hface, heyes]
  by_cases hc : s.eye_closed_counter + 1 > t <;> simp [hc]

/-- Feeding `n` face-present closed-eye frames from a zeroed closed
counter leaves the closed counter at exactly `n`. -/
lemma stateAfter_closed_counter (t nf : Int) (obs : Nat → Observation)
    (hobs : ∀ i, (obs i).facePresent = true ∧ (obs i).eyeCount < 2) (n : Nat) :
    (stateAfter t ⟨0, nf⟩ obs n).eye_closed_counter = (n : Int) := by
  induction n with
  | zero => rfl
  | succ n ih =>
    rw [stateAfter, detect_eye_state_closed t _ _ (hobs n).1 (hobs n).2]
    simp [ih]

/-- Discrete mode: on an all-closed stream the `n`-th call is
confirmed-closed exactly when `n > threshold`, uncertain otherwise. -/
lemma callResult_closed (t nf : Int) (obs : Nat → Observation)
    (hobs : ∀ i, (obs i).facePresent = true ∧ (obs i).eyeCount < 2)
    (n : Nat) (hn : 1 ≤ n) :
    callResult t ⟨0, nf⟩ obs n =
      (if (n : Int) > t then DetectionState.EYES_CLOSED
       else DetectionState.UNCERTAIN) := by
  unfold callResult
  rw [detect_eye_state_closed t _ _ (hobs (n - 1)).1 (hobs (n - 1)).2]
  rw [stateAfter_closed_counter t nf obs hobs (n - 1)]
  have h : ((n - 1 : Nat) : Int) + 1 = (n : Int) := by omega
  rw [h]

/-- On a below-threshold frame, the continuous-mode debouncer increments
the frame counter and alerts exactly when the incremented counter has
reached `CONSECUTIVE_FRAMES`. -/
lemma process_frame_face_closed (th : ℚ) (cf : Int) (s : SleepState) (ear : ℚ)
    (hear : ear < th) :
    process_frame_face th cf s ear =
      ({ frame_counter := s.frame_counter + 1,
         sleepy_counter :=
           if s.frame_counter + 1 ≥ cf then s.sleepy_counter + 1
           else s.sleepy_counter },
        (if s.frame_counter + 1 ≥ cf then DetectionState.EYES_CLOSED
         else DetectionState.UNCERTAIN),
        (if s.frame_counter + 1 ≥ cf then ['0'] else [])) := by
  simp only [process_frame_face, if_pos hear]
  by_cases hc : s.frame_counter + 1 ≥ cf <;> simp [hc]

/-- Feeding `n` below-threshold frames from a zeroed frame counter leaves
the frame counter at exactly `n`. -/
lemma sleepStateAfter_frame_counter (th : ℚ) (cf sc : Int) (ears : Nat → ℚ)
    (hears : ∀ i, ears i < th) (n : Nat) :
    (sleepStateAfter th cf ⟨0, sc⟩ ears n).frame_counter = (n : Int) := by
  induction n with
  | zero => rfl
  | succ n ih =>
    rw [sleepStateAfter, process_frame_face_closed th cf _ _ (hears n)]
    simp [ih]

/-- Continuous mode: on an all-below-threshold stream the `n`-th call is
confirmed-closed exactly when `n ≥ CONSECUTIVE_FRAMES`, uncertain
otherwise. -/
lemma sleepCallResult_closed (th : ℚ) (cf sc : Int) (ears : Nat → ℚ)
    (hears : ∀ i, ears i < th) (n : Nat) (hn : 1 ≤ n) :
    sleepCallResult th cf ⟨0, sc⟩ ears n =
      (if (n : Int) ≥ cf then DetectionState.EYES_CLOSED
       else DetectionState.UNCERTAIN) := by
  unfold sleepCallResult
  rw [process_frame_face_closed th cf _ _ (hears (n - 1))]
  rw [sleepStateAfter_frame_counter th cf sc ears hears (n - 1)]
  have h : ((n - 1 : Nat) : Int) + 1 = (n : Int) := by omega
  rw [h]

/-- C1 counterexample: in continuous mode with the source constants
(`EAR_THRESHOLD = 0.21`, `CONSECUTIVE_FRAMES = 20`), a stream of
below-threshold observations already yields the confirmed-closed alert on
the 20-th call, although call 20 comes before the (threshold+1)-th = 21-st
call, where the claim still requires `UNCERTAIN`. -/
theorem C1_closed_threshold_counterexample :
    (1 : ℚ) / 10 < EAR_THRESHOLD ∧
    (20 : Int) < CONSECUTIVE_FRAMES + 1 ∧
    sleepCallResult EAR_THRESHOLD CONSECUTIVE_FRAMES ⟨0, 0⟩ (fun _ => 1 / 10) 20 =
      DetectionState.EYES_CLOSED := by
  refine ⟨by norm_num [EAR_THRESHOLD], by norm_num [CONSECUTIVE_FRAMES], ?_⟩
  rw [sleepCallResult_closed EAR_THRESHOLD CONSECUTIVE_FRAMES 0 _
        (fun _ => by norm_num [EAR_THRESHOLD]) 20 (by norm_num)]
  norm_num [CONSECUTIVE_FRAMES]

/-- C1 (amended): starting from a zero closed counter, on a stream of
face-present closed-eye observations the discrete debouncer returns
confirmed-closed on and after the (threshold+1)-th call and uncertain
before it, while on a stream of below-threshold eye-aspect-ratio frames
the continuous debouncer returns the confirmed-closed alert on and after
the `CONSECUTIVE_FRAMES`-th call and uncertain before it. -/
theorem C1_debounce_threshold_crossing (t nf : Int) (obs : Nat → Observation)
    (hobs : ∀ i, (obs i).facePresent = true ∧ (obs i).eyeCount < 2)
    (th : ℚ) (cf sc : Int) (ears : Nat → ℚ) (hears : ∀ i, ears i < th)
    (n : Nat) (hn : 1 ≤ n) :
    callResult t ⟨0, nf⟩ obs n =
      (if (n : Int) > t then DetectionState.EYES_CLOSED
       else DetectionState.UNCERTAIN) ∧
    sleepCallResult th cf ⟨0, sc⟩ ears n =
      (if (n : Int) ≥ cf then DetectionState.EYES_CLOSED
       else DetectionState.UNCERTAIN) :=
  ⟨callResult_closed t nf obs hobs n hn,
   sleepCallResult_closed th cf sc ears hears n hn⟩

/-- Witness for `C1_debounce_threshold_crossing` at the source constants
and call 16: the discrete debouncer (threshold 15) is confirmed-closed,
the continuous one (20 consecutive frames) still uncertain. -/
theorem C1_debounce_threshold_crossing_witness :
    callResult 15 ⟨0, 0⟩ (fun _ => ⟨true, 0⟩) 16 =
      (if (16 : Int) > 15 then DetectionState.EYES_CLOSED
       else DetectionState.UNCERTAIN) ∧
    sleepCallResult (21 / 100) 20 ⟨0, 0⟩ (fun _ => 1 / 10) 16 =
      (if (16 : Int) ≥ 20 then DetectionState.EYES_CLOSED
       else DetectionState.UNCERTAIN) :=
  C1_debounce_threshold_crossing 15 0 (fun _ => ⟨true, 0⟩)
    (fun _ => ⟨rfl, by norm_num⟩) (21 / 100) 20 0 (fun _ => 1 / 10)
    (fun _ => by norm_num) 16 (by norm_num)

/-- The serial handle `self.arduino`: `noLink` models `None`, and
`port isOpen faulty` models a `serial.Serial` object whose `is_open`
property is `isOpen` and whose `write` raises an exception exactly when
`faulty` is true (a device unplugged mid-session). -/
inductive LinkState where
  | noLink
  | port (isOpen : Bool) (faulty : Bool)
deriving DecidableEq

/-- Result of one `send_to_arduino` call: the handle afterwards, whether
a `write` was attempted, and the byte that reached the wire (`none` when
the write was skipped or raised). -/
structure SendResult where
  link : LinkState
  attempted : Bool
  delivered : Option Char
deriving DecidableEq

/-- `send_to_arduino` (identical in all three systems): writes only when
the handle exists and `is_open` holds; a raising write is caught and
logged, and the handle field is left untouched in every branch. -/
def send_to_arduino (l : LinkState) (signal : Char) : SendResult :=
  match l with
  | .noLink => ⟨.noLink, false, none⟩
  | .port isOpen faulty =>
    if isOpen then
      if faulty then ⟨.port isOpen faulty, true, none⟩
      else ⟨.port isOpen faulty, true, some signal⟩
    else ⟨.port isOpen faulty, false, none⟩

/-- A sequence of `send_to_arduino` calls threading the handle through,
collecting every call's result. -/
def sendSeq (l : LinkState) : List Char → LinkState × List SendResult
  | [] => (l, [])
  | c :: cs =>
    let r := send_to_arduino l c
    let q := sendSeq r.link cs
    (q.1, r :: q.2)

/-- `EyeControlledCar.setup_arduino`: `available` abstracts whether the
`serial.Serial(port, baud_rate)` constructor succeeds.  On success the
handle is stored and the initial `'0'` (car stopped) is sent; on failure
the exception is caught and the handle is set to `None`.  The returned
list records the signals handed to `send_to_arduino`. -/
def setup_arduino (available faulty : Bool) : LinkState × List Char :=
  if available then ((send_to_arduino (.port true faulty) '0').link, ['0'])
  else (.noLink, [])

/-- The state of `EyeControlledCar` relevant to one loop iteration:
debounce counters, `self.car_running`, and the serial handle. -/
structure CarSystem where
  debounce : DebounceState
  car_running : Bool
  link : LinkState
deriving DecidableEq

/-- One iteration of the `EyeControlledCar.run` loop body after frame
acquisition: detect the eye state, then start the car on a confirmed-open
frame only if it is not already running, stop it on a confirmed-closed or
no-face frame only if it is currently running, and do nothing on an
uncertain frame.  The returned list records the signals handed to
`send_to_arduino` during the iteration. -/
def runStep (threshold : Int) (sys : CarSystem) (o : Observation) :
    CarSystem × List Char :=
  let d := detect_eye_state threshold sys.debounce o
  match d.2.eyesOpen with
  | some true =>
    if sys.car_running = false then
      ({ debounce := d.1, car_running := true,
         link := (send_to_arduino sys.link '1').link }, ['1'])
    else
      ({ debounce := d.1, car_running := sys.car_running, link := sys.link }, [])
  | some false =>
    if sys.car_running = true then
      ({ debounce := d.1, car_running := false,
         link := (send_to_arduino sys.link '0').link }, ['0'])
    else
      ({ debounce := d.1, car_running := sys.car_running, link := sys.link }, [])
  | none =>
      ({ debounce := d.1, car_running := sys.car_running, link := sys.link }, [])

/-- The `EyeControlledCar.run` loop over a finite list of frames,
concatenating the signals handed to `send_to_arduino`. -/
def runSteps (threshold : Int) (sys : CarSystem) :
    List Observation → CarSystem × List Char
  | [] => (sys, [])
  | o :: rest =>
    let p := runStep threshold sys o
    let q := runSteps threshold p.1 rest
    (q.1, p.2 ++ q.2)

/-- The decision policy embedded in the `EyeControlledCar.run` branches,
as a function of the frame's detection outcome and the current
`car_running` flag (`true` = RUNNING, `false` = STOPPED). -/
def decide_car (det : DetectionState) (running : Bool) : Bool :=
  match det.eyesOpen with
  | some true => true
  | some false => false
  | none => running

/-- `SimpleSleepinessDetector.FACE_ABSENT_THRESHOLD`. -/
def FACE_ABSENT_THRESHOLD : Int := 30

/-- `SimpleSleepinessDetector.EYE_CLOSED_THRESHOLD`. -/
def SIMPLE_EYE_CLOSED_THRESHOLD : Int := 20

/-- The mutable counters of `SimpleSleepinessDetector` that
`detect_sleepiness` touches (`self.no_face_counter`,
`self.eye_closed_counter`). -/
structure SimpleState where
  no_face_counter : Int
  eye_closed_counter : Int
deriving DecidableEq

/-- The five return sites of `SimpleSleepinessDetector.detect_sleepiness`,
identified by their status message. -/
inductive SimpleStatus where
  | noFaceAlert
  | searching
  | drowsyAlert
  | possiblyClosed
  | eyesOpen
deriving DecidableEq

/-- `SimpleSleepinessDetector.detect_sleepiness`: returns the updated
counters, the `is_sleepy` flag, and which return site was taken.  Only
the confirmed-drowsy branch reports `is_sleepy = true`; every no-face
branch reports `false`. -/
def detect_sleepiness (s : SimpleState) (o : Observation) :
    SimpleState × Bool × SimpleStatus :=
  if o.facePresent = false then
    if s.no_face_counter + 1 > FACE_ABSENT_THRESHOLD then
      ({ no_face_counter := s.no_face_counter + 1, eye_closed_counter := 0 },
        false, .noFaceAlert)
    else
      ({ no_face_counter := s.no_face_counter + 1, eye_closed_counter := 0 },
        false, .searching)
  else
    if o.eyeCount < 2 then
      if s.eye_closed_counter + 1 > SIMPLE_EYE_CLOSED_THRESHOLD then
        ({ no_face_counter := 0, eye_closed_counter := s.eye_closed_counter + 1 },
          true, .drowsyAlert)
      else
        ({ no_face_counter := 0, eye_closed_counter := s.eye_closed_counter + 1 },
          false, .possiblyClosed)
    else
      ({ no_face_counter := 0, eye_closed_counter := 0 }, false, .eyesOpen)

/-- One iteration of the `SimpleSleepinessDetector.run` loop body: it
hands a byte to `send_to_arduino` on every frame, `'0'` when `is_sleepy`
and `'1'` otherwise. -/
def simpleRunStep (s : SimpleState) (l : LinkState) (o : Observation) :
    (SimpleState × LinkState) × List Char :=
  let d := detect_sleepiness s o
  if d.2.1 = true then ((d.1, (send_to_arduino l '0').link), ['0'])
  else ((d.1, (send_to_arduino l '1').link), ['1'])

/-- The `SimpleSleepinessDetector.run` loop over a finite list of frames,
concatenating the signals handed to `send_to_arduino`. -/
def simpleRunSteps (s : SimpleState) (l : LinkState) :
    List Observation → (SimpleState × LinkState) × List Char
  | [] => ((s, l), [])
  | o :: rest =>
    let p := simpleRunStep s l o
    let q := simpleRunSteps p.1.1 p.1.2 rest
    (q.1, p.2 ++ q.2)

/-- Counter fields set by `EyeControlledCar.__init__`
(`eye_closed_counter = 0`, `no_face_counter = 0`). -/
def initDebounce : DebounceState := { eye_closed_counter := 0, no_face_counter := 0 }

/-- `EyeControlledCar` state right after `__init__` set its fields
(`car_running = False`, i.e. STOPPED) with the handle produced by
`setup_arduino`. -/
def initCarSystem (l : LinkState) : CarSystem :=
  { debounce := initDebounce, car_running := false, link := l }

/-- `serial.Serial.close`: clears `is_open`. -/
def closeLink : LinkState → LinkState
  | .noLink => .noLink
  | .port _ faulty => .port false faulty

/-- `EyeControlledCar.cleanup`: when a handle exists (`if self.arduino:`),
send the final `'0'` (stop car) and close the handle.  Returns the handle
afterwards and the signals handed to `send_to_arduino`. -/
def cleanup (l : LinkState) : LinkState × List Char :=
  match l with
  | .noLink => (.noLink, [])
  | .port isOpen faulty =>
    (closeLink (send_to_arduino (.port isOpen faulty) '0').link, ['0'])

/-- `SleepinessDetector.cleanup`: when a handle exists, send a final `'1'`
(the comment reads `Turn off motor`) and close the handle. -/
def sleepiness_cleanup (l : LinkState) : LinkState × List Char :=
  match l with
  | .noLink => (.noLink, [])
  | .port isOpen faulty =>
    (closeLink (send_to_arduino (.port isOpen faulty) '1').link, ['1'])

/-- The state of `EyeControlledCarWithVoice.run` relevant to one loop
iteration: debounce counters, `self.car_running`, `self.voice_active`,
and the loop-local `last_voice_time` (seconds, as returned by
`time.time()` and modelled as `ℚ`). -/
structure VoiceSystem where
  debounce : DebounceState
  car_running : Bool
  voice_active : Bool
  last_voice_time : ℚ
deriving DecidableEq

/-- One iteration of the `EyeControlledCarWithVoice.run` loop body (the
serial handle is omitted: it does not influence the branch structure).
`now` is this iteration's `current_time = time.time()`.  Returns the new
state, the signals handed to `send_to_arduino`, and whether the wake-up
`say_voice` alert of the eyes-closed branch fired this frame. -/
def voiceRunStep (threshold : Int) (sys : VoiceSystem) (o : Observation)
    (now : ℚ) : VoiceSystem × List Char × Bool :=
  let d := detect_eye_state threshold sys.debounce o
  match d.2.eyesOpen with
  | some true =>
    if sys.car_running = false then
      ({ debounce := d.1, car_running := true, voice_active := false,
         last_voice_time := sys.last_voice_time }, ['1'], false)
    else
      ({ debounce := d.1, car_running := sys.car_running,
         voice_active := sys.voice_active,
         last_voice_time := sys.last_voice_time }, [], false)
  | some false =>
    let running := if sys.car_running = true then false else sys.car_running
    let sent : List Char := if sys.car_running = true then ['0'] else []
    if sys.voice_active = false ∨ now - sys.last_voice_time > 3 then
      ({ debounce := d.1, car_running := running, voice_active := true,
         last_voice_time := now }, sent, true)
    else
      ({ debounce := d.1, car_running := running,
         voice_active := sys.voice_active,
         last_voice_time := sys.last_voice_time }, sent, false)
  | none =>
      ({ debounce := d.1, car_running := sys.car_running,
         voice_active := sys.voice_active,
         last_voice_time := sys.last_voice_time }, [], false)

/-- Euclidean distance between two landmark points,
`scipy.spatial.distance.euclidean`. -/
noncomputable def euclidean (p q : ℝ × ℝ) : ℝ :=
  Real.sqrt ((p.1 - q.1) ^ 2 + (p.2 - q.2) ^ 2)

/-- `SleepinessDetector.calculate_ear` over the six landmark points
`eye_points[0] … eye_points[5]`: `A = dist(points[1], points[5])`,
`B = dist(points[2], points[4])`, `C = dist(points[0], points[3])`,
`ear = (A + B) / (2.0 * C)`. -/
noncomputable def calculate_ear (e0 e1 e2 e3 e4 e5 : ℝ × ℝ) : ℝ :=
  (euclidean e1 e5 + euclidean e2 e4) / (2 * euclidean e0 e3)

/-- The EAR formula exactly as the specification words it, over the
1-indexed contour points `p1 … p6`:
`EAR = (dist(p2, p6) + dist(p3, p5)) / (2 * dist(p1, p4))`. -/
noncomputable def spec_ear (p1 p2 p3 p4 p5 p6 : ℝ × ℝ) : ℝ :=
  (euclidean p2 p6 + euclidean p3 p5) / (2 * euclidean p1 p4)

/-- The averaging step of `SleepinessDetector.process_frame`:
`avg_ear = (left_ear + right_ear) / 2.0` with both per-eye values coming
from `calculate_ear`. -/
noncomputable def frame_avg_ear (l0 l1 l2 l3 l4 l5 r0 r1 r2 r3 r4 r5 : ℝ × ℝ) : ℝ :=
  (calculate_ear l0 l1 l2 l3 l4 l5 + calculate_ear r0 r1 r2 r3 r4 r5) / 2

/-- Unfolding equation for `runSteps` on a nonempty frame list. -/
lemma runSteps_cons (t : Int) (sys : CarSystem) (o : Observation)
    (rest : List Observation) :
    runSteps t sys (o :: rest) =
      ((runSteps t (runStep t sys o).1 rest).1,
        (runStep t sys o).2 ++ (runSteps t (runStep t sys o).1 rest).2) := rfl

/-- Unfolding equation for `simpleRunSteps` on a nonempty frame list. -/
lemma simpleRunSteps_cons (s : SimpleState) (l : LinkState) (o : Observation)
    (rest : List Observation) :
    simpleRunSteps s l (o :: rest) =
      ((simpleRunSteps (simpleRunStep s l o).1.1 (simpleRunStep s l o).1.2 rest).1,
        (simpleRunStep s l o).2 ++
          (simpleRunSteps (simpleRunStep s l o).1.1 (simpleRunStep s l o).1.2
            rest).2) := rfl

/-- On a face-present frame with at least two eyes, `detect_eye_state`
zeroes both counters and reports eyes open. -/
lemma detect_eye_state_open (t : Int) (s : DebounceState) (o : Observation)
    (hface : o.facePresent = true) (heyes : 2 ≤ o.eyeCount) :
    detect_eye_state t s o =
      ({ eye_closed_counter := 0, no_face_counter := 0 },
        DetectionState.EYES_OPEN) := by
  simp [detect_eye_state, hface, Nat.not_lt.mpr heyes]

/-- On an eyes-open frame, one `EyeControlledCar.run` iteration leaves the
car running, and hands `'1'` to `send_to_arduino` only when the car was
not already running. -/
lemma runStep_open (t : Int) (sys : CarSystem) (o : Observation)
    (hface : o.facePresent = true) (heyes : 2 ≤ o.eyeCount) :
    (runStep t sys o).1.car_running = true ∧
    (runStep t sys o).2 = (if sys.car_running then [] else ['1']) := by
  have hdet := detect_eye_state_open t sys.debounce o hface heyes
  by_cases hr : sys.car_running <;>
    simp [runStep, hdet, DetectionState.eyesOpen, hr]

/-- While already running, an all-open frame list produces no
`send_to_arduino` invocation at all and keeps the car running. -/
lemma runSteps_open_all_running (t : Int) (sys : CarSystem)
    (obs : List Observation)
    (hopen : ∀ o ∈ obs, o.facePresent = true ∧ 2 ≤ o.eyeCount)
    (hrun : sys.car_running = true) :
    (runSteps t sys obs).1.car_running = true ∧ (runSteps t sys obs).2 = [] := by
  induction obs generalizing sys with
  | nil => exact ⟨hrun, rfl⟩
  | cons o rest ih =>
    have ho := hopen o (List.mem_cons_self o rest)
    have h1 := runStep_open t sys o ho.1 ho.2
    have h2 := ih (runStep t sys o).1
      (fun o' ho' => hopen o' (List.mem_cons_of_mem _ ho')) h1.1
    rw [runSteps_cons]
    refine ⟨h2.1, ?_⟩
    rw [h1.2, if_pos hrun, h2.2]
    rfl

/-- On an eyes-open frame, `SimpleSleepinessDetector.run` hands `'1'` to
`send_to_arduino` and zeroes both counters. -/
lemma simpleRunStep_open (s : SimpleState) (l : LinkState) (o : Observation)
    (hface : o.facePresent = true) (heyes : 2 ≤ o.eyeCount) :
    (simpleRunStep s l o).2 = ['1'] ∧
    (simpleRunStep s l o).1.1 = { no_face_counter := 0, eye_closed_counter := 0 } := by
  simp [simpleRunStep, detect_sleepiness, hface, Nat.not_lt.mpr heyes]

/-- The simple detector loop hands one byte to `send_to_arduino` on every
frame: an all-open frame list yields one `'1'` per frame. -/
lemma simpleRunSteps_open (s : SimpleState) (l : LinkState)
    (obs : List Observation)
    (hopen : ∀ o ∈ obs, o.facePresent = true ∧ 2 ≤ o.eyeCount) :
    (simpleRunSteps s l obs).2 = List.replicate obs.length '1' := by
  induction obs generalizing s l with
  | nil => rfl
  | cons o rest ih =>
    have ho := hopen o (List.mem_cons_self o rest)
    have h1 := simpleRunStep_open s l o ho.1 ho.2
    rw [simpleRunSteps_cons, h1.2]
    simp only [List.length_cons, List.replicate_succ]
    rw [ih _ _ (fun o' ho' => hopen o' (List.mem_cons_of_mem _ ho')), h1.1]
    rfl

/-- C2 counterexample: in `SimpleSleepinessDetector.run`, a steady stream
of two eyes-open frames makes `send_to_arduino` fire twice, re-sending the
`'1'` byte on the second frame although the state is held steady; the
claim allows at most one invocation per steady stream. -/
theorem C2_resend_counterexample :
    (detect_sleepiness ⟨0, 0⟩ ⟨true, 2⟩).2.2 = SimpleStatus.eyesOpen ∧
    (simpleRunSteps ⟨0, 0⟩ .noLink [⟨true, 2⟩, ⟨true, 2⟩]).2 = ['1', '1'] ∧
    (simpleRunSteps ⟨0, 0⟩ .noLink [⟨true, 2⟩, ⟨true, 2⟩]).2.length = 2 := by
  refine ⟨rfl, rfl, rfl⟩

/-- C2 (amended): the `EyeControlledCar.run` loop is edge-triggered — on a
steady eyes-open stream of length ≥ 1 it invokes `send_to_arduino`
exactly once when the car was stopped (with byte `'1'`, on the first
frame's transition into RUNNING) and never when it was already running —
whereas the sleepiness detectors invoke `send_to_arduino` on every frame,
re-sending `'1'` per frame while steady. -/
theorem C2_edge_triggered_send (t : Int) (sys : CarSystem)
    (obs : List Observation) (s : SimpleState) (l : LinkState)
    (hne : obs ≠ [])
    (hopen : ∀ o ∈ obs, o.facePresent = true ∧ 2 ≤ o.eyeCount)
    (th : ℚ) (cf : Int) (ss : SleepState) (ear : ℚ) (hear : th ≤ ear) :
    (runSteps t sys obs).2 = (if sys.car_running then [] else ['1']) ∧
    (runSteps t sys obs).1.car_running = true ∧
    (simpleRunSteps s l obs).2 = List.replicate obs.length '1' ∧
    (process_frame_face th cf ss ear).2.2 = ['1'] := by
  refine ⟨?_, ?_, simpleRunSteps_open s l obs hopen, ?_⟩
  · cases obs with
    | nil => exact absurd rfl hne
    | cons o rest =>
      have ho := hopen o (List.mem_cons_self o rest)
      have h1 := runStep_open t sys o ho.1 ho.2
      have h2 := runSteps_open_all_running t (runStep t sys o).1 rest
        (fun o' ho' => hopen o' (List.mem_cons_of_mem _ ho')) h1.1
      rw [runSteps_cons, h1.2, h2.2]
      by_cases hr : sys.car_running <;> simp [hr]
  · cases obs with
    | nil => exact absurd rfl hne
    | cons o rest =>
      have ho := hopen o (List.mem_cons_self o rest)
      have h1 := runStep_open t sys o ho.1 ho.2
      have h2 := runSteps_open_all_running t (runStep t sys o).1 rest
        (fun o' ho' => hopen o' (List.mem_cons_of_mem _ ho')) h1.1
      rw [runSteps_cons]
      exact h2.1
  · simp [process_frame_face, not_lt.mpr hear]

/-- Witness for `C2_edge_triggered_send`: two eyes-open frames from the
stopped initial state yield a single `'1'` from the car loop and two from
the simple loop. -/
theorem C2_edge_triggered_send_witness :
    (runSteps 15 ⟨⟨0, 0⟩, false, .noLink⟩ [⟨true, 2⟩, ⟨true, 2⟩]).2 =
      (if false then [] else ['1']) ∧
    (runSteps 15 ⟨⟨0, 0⟩, false, .noLink⟩ [⟨true, 2⟩, ⟨true, 2⟩]).1.car_running = true ∧
    (simpleRunSteps ⟨0, 0⟩ .noLink [⟨true, 2⟩, ⟨true, 2⟩]).2 =
      List.replicate ([⟨true, 2⟩, ⟨true, 2⟩] : List Observation).length '1' ∧
    (process_frame_face (21 / 100) 20 ⟨0, 0⟩ (3 / 10)).2.2 = ['1'] :=
  C2_edge_triggered_send 15 ⟨⟨0, 0⟩, false, .noLink⟩ [⟨true, 2⟩, ⟨true, 2⟩]
    ⟨0, 0⟩ .noLink (by simp)
    (by intro o ho
        have h : o = (⟨true, 2⟩ : Observation) := by simpa using ho
        subst h
        exact ⟨rfl, by norm_num⟩)
    (21 / 100) 20 ⟨0, 0⟩ (3 / 10) (by norm_num)

/-- C3 counterexample: in `SimpleSleepinessDetector`, a no-face frame
(`searching` status) and a below-threshold uncertain frame
(`possiblyClosed` status) both report `is_sleepy = false`, so the run loop
hands the run byte `'1'` to `send_to_arduino` — the claim instead requires
NO_FACE to map to STOPPED (`'0'`) and UNCERTAIN to hold the state. -/
theorem C3_no_face_runs_counterexample :
    (detect_sleepiness ⟨0, 0⟩ ⟨false, 0⟩).2.2 = SimpleStatus.searching ∧
    (simpleRunStep ⟨0, 0⟩ .noLink ⟨false, 0⟩).2 = ['1'] ∧
    (detect_sleepiness ⟨0, 0⟩ ⟨true, 0⟩).2.2 = SimpleStatus.possiblyClosed ∧
    (simpleRunStep ⟨0, 0⟩ .noLink ⟨true, 0⟩).2 = ['1'] ∧
    ('1' : Char) ≠ '0' := by
  refine ⟨rfl, rfl, rfl, rfl, by decide⟩

/-- C3 (amended): the decision policy of `EyeControlledCar.run` maps
EYES_OPEN to RUNNING, EYES_CLOSED and NO_FACE to STOPPED, and holds the
current state on UNCERTAIN, and `runStep` implements exactly that policy;
the simple sleepiness loop instead sends a byte every frame, choosing the
stop byte `'0'` exactly on the confirmed-drowsy outcome and the run byte
`'1'` on every other outcome, including no-face and uncertain frames. -/
theorem C3_decision_policy :
    (∀ r, decide_car .EYES_OPEN r = true) ∧
    (∀ r, decide_car .EYES_CLOSED r = false) ∧
    (∀ r, decide_car .NO_FACE r = false) ∧
    (∀ r, decide_car .UNCERTAIN r = r) ∧
    (∀ (t : Int) (sys : CarSystem) (o : Observation),
      (runStep t sys o).1.car_running =
        decide_car (detect_eye_state t sys.debounce o).2 sys.car_running) ∧
    (∀ (s : SimpleState) (l : LinkState) (o : Observation),
      (simpleRunStep s l o).2 =
        [if (detect_sleepiness s o).2.1 = true then '0' else '1']) ∧
    (∀ (s : SimpleState) (o : Observation),
      ((detect_sleepiness s o).2.1 = true ↔
        (detect_sleepiness s o).2.2 = SimpleStatus.drowsyAlert)) := by
  refine ⟨fun r => rfl, fun r => rfl, fun r => rfl, fun r => rfl, ?_, ?_, ?_⟩
  · intro t sys o
    cases hd : (detect_eye_state t sys.debounce o).2.eyesOpen with
    | none => simp [runStep, decide_car, hd]
    | some b =>
      cases b <;> by_cases hr : sys.car_running <;>
        simp [runStep, decide_car, hd, hr]
  · intro s l o
    by_cases hs : (detect_sleepiness s o).2.1 = true <;>
      simp [simpleRunStep, hs]
  · intro s o
    unfold detect_sleepiness
    split_ifs <;> simp

/-- C4: a no-face observation always takes the NO_FACE branch, increments
the no-face counter by 1 and resets the closed-eye counter to 0,
regardless of the prior counter values — in `detect_eye_state` and
likewise in `detect_sleepiness`, whose two no-face return sites both
report `is_sleepy = false`. -/
theorem C4_no_face_resets (t : Int) (s : DebounceState) (s2 : SimpleState)
    (o : Observation) (h : o.facePresent = false) :
    detect_eye_state t s o =
      ({ eye_closed_counter := 0, no_face_counter := s.no_face_counter + 1 },
        DetectionState.NO_FACE) ∧
    (detect_sleepiness s2 o).1 =
      { no_face_counter := s2.no_face_counter + 1, eye_closed_counter := 0 } ∧
    (detect_sleepiness s2 o).2.1 = false ∧
    ((detect_sleepiness s2 o).2.2 = SimpleStatus.noFaceAlert ∨
      (detect_sleepiness s2 o).2.2 = SimpleStatus.searching) := by
  refine ⟨by simp [detect_eye_state, h], ?_, ?_, ?_⟩ <;>
    simp only [detect_sleepiness, h, if_true, reduceIte] <;>
    split_ifs <;> simp

/-- Witness for `C4_no_face_resets` at counters (5, 2) / (7, 3). -/
theorem C4_no_face_resets_witness :
    detect_eye_state 15 ⟨5, 2⟩ ⟨false, 1⟩ =
      ({ eye_closed_counter := 0, no_face_counter := 3 },
        DetectionState.NO_FACE) ∧
    (detect_sleepiness ⟨7, 3⟩ ⟨false, 1⟩).1 =
      { no_face_counter := 8, eye_closed_counter := 0 } ∧
    (detect_sleepiness ⟨7, 3⟩ ⟨false, 1⟩).2.1 = false ∧
    ((detect_sleepiness ⟨7, 3⟩ ⟨false, 1⟩).2.2 = SimpleStatus.noFaceAlert ∨
      (detect_sleepiness ⟨7, 3⟩ ⟨false, 1⟩).2.2 = SimpleStatus.searching) :=
  C4_no_face_resets 15 ⟨5, 2⟩ ⟨7, 3⟩ ⟨false, 1⟩ rfl

/-- One loop iteration's debounce counters, car flag and issued signals
do not depend on the serial handle. -/
lemma runStep_link_indep (t : Int) (sys sys' : CarSystem) (o : Observation)
    (hd : sys.debounce = sys'.debounce)
    (hr : sys.car_running = sys'.car_running) :
    (runStep t sys o).1.debounce = (runStep t sys' o).1.debounce ∧
    (runStep t sys o).1.car_running = (runStep t sys' o).1.car_running ∧
    (runStep t sys o).2 = (runStep t sys' o).2 := by
  cases hdet : (detect_eye_state t sys'.debounce o).2.eyesOpen with
  | none => simp [runStep, hd, hr, hdet]
  | some b =>
    cases b <;> by_cases hr2 : sys'.car_running <;>
      simp [runStep, hd, hr, hdet, hr2]

/-- The whole loop's debounce counters, car flag and issued signals do
not depend on the serial handle. -/
lemma runSteps_link_indep (t : Int) (obs : List Observation) :
    ∀ sys sys' : CarSystem, sys.debounce = sys'.debounce →
      sys.car_running = sys'.car_running →
      (runSteps t sys obs).1.debounce = (runSteps t sys' obs).1.debounce ∧
      (runSteps t sys obs).1.car_running = (runSteps t sys' obs).1.car_running ∧
      (runSteps t sys obs).2 = (runSteps t sys' obs).2 := by
  induction obs with
  | nil => exact fun sys sys' hd hr => ⟨hd, hr, rfl⟩
  | cons o rest ih =>
    intro sys sys' hd hr
    have h1 := runStep_link_indep t sys sys' o hd hr
    have h2 := ih (runStep t sys o).1 (runStep t sys' o).1 h1.1 h1.2.1
    rw [runSteps_cons, runSteps_cons]
    exact ⟨h2.1, h2.2.1, by rw [h1.2.2, h2.2.2]⟩

/-- C5: disconnection transparency.  A failed `serial.Serial` constructor
is caught and leaves the handle `None` instead of raising; every
`send_to_arduino` on the `None` handle is a total no-op (no write
attempted, nothing delivered, handle unchanged, no exception escapes);
and the loop's counters, car state and issued command stream over any
input sequence are identical with a missing handle and with any live
one. -/
theorem C5_disconnection_transparency :
    (∀ f : Bool, setup_arduino false f = (.noLink, [])) ∧
    (∀ c : Char, send_to_arduino .noLink c = ⟨.noLink, false, none⟩) ∧
    (∀ (t : Int) (d : DebounceState) (r : Bool) (l l' : LinkState)
        (obs : List Observation),
      (runSteps t ⟨d, r, l⟩ obs).1.debounce =
        (runSteps t ⟨d, r, l'⟩ obs).1.debounce ∧
      (runSteps t ⟨d, r, l⟩ obs).1.car_running =
        (runSteps t ⟨d, r, l'⟩ obs).1.car_running ∧
      (runSteps t ⟨d, r, l⟩ obs).2 = (runSteps t ⟨d, r, l'⟩ obs).2) :=
  ⟨fun _ => rfl, fun _ => rfl,
   fun t d r l l' obs => runSteps_link_indep t obs ⟨d, r, l⟩ ⟨d, r, l'⟩ rfl rfl⟩

/-- C6 counterexample: on an open but faulty handle the write raises and
is caught (nothing delivered), yet the handle is not demoted — it stays
the same open port rather than becoming `None` — and the very next
`send_to_arduino` call attempts a write again, which the claim forbids. -/
theorem C6_no_demotion_counterexample :
    (send_to_arduino (.port true true) '1').delivered = none ∧
    (send_to_arduino (.port true true) '1').attempted = true ∧
    (send_to_arduino (.port true true) '1').link = .port true true ∧
    (send_to_arduino (.port true true) '1').link ≠ .noLink ∧
    (send_to_arduino (send_to_arduino (.port true true) '1').link '0').attempted
      = true := by
  refine ⟨rfl, rfl, rfl, by decide, rfl⟩

/-- C6 (amended): a write failure on a live link is caught and the byte is
dropped, but the link is not demoted: after any sequence of failing sends
the handle is still the same open faulty port, and every single call in
the sequence attempted a write and delivered nothing — the code retries
the write on every call and contains no demotion or reconnection logic. -/
theorem C6_write_failure_drops_byte (cs : List Char) :
    (sendSeq (.port true true) cs).1 = .port true true ∧
    ∀ r ∈ (sendSeq (.port true true) cs).2,
      r.attempted = true ∧ r.delivered = none := by
  induction cs with
  | nil => exact ⟨rfl, by intro r hr; simp [sendSeq] at hr⟩
  | cons c cs ih =>
    refine ⟨ih.1, ?_⟩
    intro r hr
    rw [show sendSeq (.port true true) (c :: cs) =
          ((sendSeq (.port true true) cs).1,
            (⟨.port true true, true, none⟩ : SendResult) ::
              (sendSeq (.port true true) cs).2) from rfl] at hr
    rcases List.mem_cons.mp hr with h | h
    · rw [h]; exact ⟨rfl, rfl⟩
    · exact ih.2 r h

/-- C7 counterexample: `SleepinessDetector.cleanup` hands `'1'` — the
run/eyes-open byte of the wire vocabulary — to `send_to_arduino` at
shutdown, not the STOPPED byte `'0'` the claim requires. -/
theorem C7_shutdown_byte_counterexample :
    (sleepiness_cleanup (.port true false)).2 = ['1'] ∧ ('1' : Char) ≠ '0' := by
  exact ⟨rfl, by decide⟩

/-- C7 (amended): at system start both debounce counters are created at 0
and the car state is created STOPPED (`car_running = False`); at shutdown
`EyeControlledCar.cleanup` sends a final `'0'` best-effort (only when a
handle exists) before closing the port, while `SleepinessDetector.cleanup`
instead sends `'1'`, its motor-off byte, before closing. -/
theorem C7_lifecycle :
    initDebounce.eye_closed_counter = 0 ∧
    initDebounce.no_face_counter = 0 ∧
    (∀ l, (initCarSystem l).car_running = false) ∧
    (∀ op fl, cleanup (.port op fl) = (.port false fl, ['0'])) ∧
    cleanup .noLink = (.noLink, []) ∧
    (∀ op fl, sleepiness_cleanup (.port op fl) = (.port false fl, ['1'])) := by
  refine ⟨rfl, rfl, fun l => rfl, ?_, rfl, ?_⟩ <;>
    intro op fl <;> cases op <;> cases fl <;> rfl

/-- C8 counterexample: with threshold 15 and the closed counter at 16, a
closed frame at time 0 transitions into STOPPED (byte `'0'` sent) and
fires the wake-up voice alert; the next closed frame at time 4 is steady
(no transition, no byte sent) yet fires the voice alert again, because
more than 3 seconds elapsed — contradicting "never invoked again on
subsequent frames while steady". -/
theorem C8_steady_realert_counterexample :
    (voiceRunStep 15 ⟨⟨16, 0⟩, true, false, 0⟩ ⟨true, 0⟩ 0).2.2 = true ∧
    (voiceRunStep 15 ⟨⟨16, 0⟩, true, false, 0⟩ ⟨true, 0⟩ 0).2.1 = ['0'] ∧
    (voiceRunStep 15 ⟨⟨16, 0⟩, true, false, 0⟩ ⟨true, 0⟩ 0).1.car_running
      = false ∧
    (voiceRunStep 15
      (voiceRunStep 15 ⟨⟨16, 0⟩, true, false, 0⟩ ⟨true, 0⟩ 0).1
      ⟨true, 0⟩ 4).2.2 = true ∧
    (voiceRunStep 15
      (voiceRunStep 15 ⟨⟨16, 0⟩, true, false, 0⟩ ⟨true, 0⟩ 0).1
      ⟨true, 0⟩ 4).2.1 = [] ∧
    (voiceRunStep 15
      (voiceRunStep 15 ⟨⟨16, 0⟩, true, false, 0⟩ ⟨true, 0⟩ 0).1
      ⟨true, 0⟩ 4).1.car_running = false := by
  refine ⟨?_, ?_, ?_, ?_, ?_, ?_⟩ <;>
    simp [voiceRunStep, detect_eye_state, DetectionState.eyesOpen] <;>
    norm_num

/-- C8 (amended): on a confirmed-closed frame the wake-up voice alert of
`EyeControlledCarWithVoice.run` fires exactly when `voice_active` is still
clear (first alert of a closed spell) or more than 3 seconds have elapsed
since the last utterance — so it fires on the STOPPED transition and is
then re-invoked on steady closed frames every time the 3-second minimum
interval has passed, rather than exactly once per transition. -/
theorem C8_alert_refire (t : Int) (sys : VoiceSystem) (o : Observation)
    (now : ℚ) (hface : o.facePresent = true) (heyes : o.eyeCount < 2)
    (hcnt : sys.debounce.eye_closed_counter + 1 > t) :
    (voiceRunStep t sys o now).2.2 = true ↔
      (sys.voice_active = false ∨ now - sys.last_voice_time > 3) := by
  have hdet := detect_eye_state_closed t sys.debounce o hface heyes
  by_cases hv : sys.voice_active = false ∨ now - sys.last_voice_time > 3 <;>
    simp [voiceRunStep, hdet, if_pos hcnt, DetectionState.eyesOpen, hv]

/-- Witness for `C8_alert_refire`: a steady closed frame (counter 20,
threshold 15) with `voice_active` set and 5 seconds elapsed fires the
alert. -/
theorem C8_alert_refire_witness :
    ((voiceRunStep 15 ⟨⟨20, 0⟩, false, true, 0⟩ ⟨true, 0⟩ 5).2.2 = true ↔
      ((true : Bool) = false ∨ (5 : ℚ) - 0 > 3)) :=
  C8_alert_refire 15 ⟨⟨20, 0⟩, false, true, 0⟩ ⟨true, 0⟩ 5 rfl
    (by norm_num) (by norm_num)

/-- C9: `calculate_ear` computes exactly the specified formula
`(dist(p2,p6) + dist(p3,p5)) / (2 * dist(p1,p4))` over the 1-indexed
contour points (0-indexed in the NumPy array), the reported frame value
is the average of the two eyes' EARs, and on a fully-open perfect square
(all three distances equal 2) the EAR is exactly 1 while on a fully
closed eye (both vertical distances 0) it is exactly 0. -/
theorem C9_ear_formula :
    (∀ e0 e1 e2 e3 e4 e5 : ℝ × ℝ,
      calculate_ear e0 e1 e2 e3 e4 e5 = spec_ear e0 e1 e2 e3 e4 e5) ∧
    (∀ l0 l1 l2 l3 l4 l5 r0 r1 r2 r3 r4 r5 : ℝ × ℝ,
      frame_avg_ear l0 l1 l2 l3 l4 l5 r0 r1 r2 r3 r4 r5 =
        (calculate_ear l0 l1 l2 l3 l4 l5 +
          calculate_ear r0 r1 r2 r3 r4 r5) / 2) ∧
    calculate_ear (0, 1) (1 / 2, 2) (3 / 2, 2) (2, 1) (3 / 2, 0) (1 / 2, 0)
      = 1 ∧
    calculate_ear (0, 0) (1 / 2, 0) (3 / 2, 0) (2, 0) (3 / 2, 0) (1 / 2, 0)
      = 0 := by
  have hsq : Real.sqrt 4 = 2 := by
    rw [show (4 : ℝ) = 2 ^ 2 by norm_num,
      Real.sqrt_sq (by norm_num : (0 : ℝ) ≤ 2)]
  have hvert : euclidean ((1 : ℝ) / 2, 2) ((1 : ℝ) / 2, 0) = 2 := by
    unfold euclidean
    norm_num [hsq]
  have hvert2 : euclidean ((3 : ℝ) / 2, 2) ((3 : ℝ) / 2, 0) = 2 := by
    unfold euclidean
    norm_num [hsq]
  have hhoriz : euclidean ((0 : ℝ), 1) ((2 : ℝ), 1) = 2 := by
    unfold euclidean
    norm_num [hsq]
  have hhoriz0 : euclidean ((0 : ℝ), 0) ((2 : ℝ), 0) = 2 := by
    unfold euclidean
    norm_num [hsq]
  have hzero : ∀ p : ℝ × ℝ, euclidean p p = 0 := by
    intro p
    unfold euclidean
    simp
  refine ⟨fun _ _ _ _ _ _ => rfl,
    fun _ _ _ _ _ _ _ _ _ _ _ _ => rfl, ?_, ?_⟩
  · unfold calculate_ear
    rw [hvert, hvert2, hhoriz]
    norm_num
  · unfold calculate_ear
    rw [hzero, hzero, hhoriz0]
    norm_num

/-- The implicit counter invariant: both counters are nonnegative and at
least one of them is zero. -/
def CounterInv (s : DebounceState) : Prop :=
  0 ≤ s.eye_closed_counter ∧ 0 ≤ s.no_face_counter ∧
    (s.eye_closed_counter = 0 ∨ s.no_face_counter = 0)

/-- The same invariant for the simple detector's counters. -/
def SimpleCounterInv (s : SimpleState) : Prop :=
  0 ≤ s.eye_closed_counter ∧ 0 ≤ s.no_face_counter ∧
    (s.eye_closed_counter = 0 ∨ s.no_face_counter = 0)

/-- C10: every `detect_eye_state` and `detect_sleepiness` step preserves
the invariant that both counters are nonnegative and never simultaneously
positive; moreover the at-least-one-counter-zero property holds after
every step outright, since each branch zeroes one of the two counters. -/
theorem C10_counter_invariant (t : Int) (s : DebounceState)
    (s2 : SimpleState) (o o2 : Observation)
    (h : CounterInv s) (h2 : SimpleCounterInv s2) :
    CounterInv (detect_eye_state t s o).1 ∧
    ((detect_eye_state t s o).1.eye_closed_counter = 0 ∨
      (detect_eye_state t s o).1.no_face_counter = 0) ∧
    SimpleCounterInv (detect_sleepiness s2 o2).1 ∧
    ((detect_sleepiness s2 o2).1.eye_closed_counter = 0 ∨
      (detect_sleepiness s2 o2).1.no_face_counter = 0) := by
  obtain ⟨ha, hb, -⟩ := h
  obtain ⟨hc, hd, -⟩ := h2
  refine ⟨?_, ?_, ?_, ?_⟩
  · simp only [detect_eye_state]
    split_ifs <;> simp [CounterInv] <;> omega
  · simp only [detect_eye_state]
    split_ifs <;> simp
  · simp only [detect_sleepiness]
    split_ifs <;> simp [SimpleCounterInv] <;> omega
  · simp only [detect_sleepiness]
    split_ifs <;> simp

/-- Witness for `C10_counter_invariant` at the initial counters and one
closed-eye / one no-face frame. -/
theorem C10_counter_invariant_witness :
    CounterInv (detect_eye_state 15 ⟨0, 0⟩ ⟨true, 0⟩).1 ∧
    ((detect_eye_state 15 ⟨0, 0⟩ ⟨true, 0⟩).1.eye_closed_counter = 0 ∨
      (detect_eye_state 15 ⟨0, 0⟩ ⟨true, 0⟩).1.no_face_counter = 0) ∧
    SimpleCounterInv (detect_sleepiness ⟨0, 0⟩ ⟨false, 0⟩).1 ∧
    ((detect_sleepiness ⟨0, 0⟩ ⟨false, 0⟩).1.eye_closed_counter = 0 ∨
      (detect_sleepiness ⟨0, 0⟩ ⟨false, 0⟩).1.no_face_counter = 0) :=
  C10_counter_invariant 15 ⟨0, 0⟩ ⟨0, 0⟩ ⟨true, 0⟩ ⟨false, 0⟩
    ⟨le_refl 0, le_refl 0, Or.inl rfl⟩ ⟨le_refl 0, le_refl 0, Or.inl rfl⟩

end IotCar
